/-
Verification of the DCF77Decoder core (Carlo47/DCF77RadioClock).

This file gives a shallow embedding of the decoder found in
src/lib/DCF77Decoder/DCF77Decoder.{h,cpp}: the edge-driven bit collector
`collectBits`, the BCD field extractor `getValueFromBits`, the telegram
decoder `decodeBits`, the parity check `parityOK`, the readiness query
`isReady` and the polling `loop`, together with theorems settling the
specification claims about them.

Modelling conventions:
  * `millis()` timestamps are naturals reduced modulo 2^32; the uint32
    subtractions `_startPulse - _endPulse` and `_endPulse - _startPulse`
    are modelled as `(a + 2^32 - b) % 2^32` on already-reduced values.
  * The 62-byte character array `_dcf77Bits` is modelled as a total
    function `Nat -> Char`; indices 0..59 carry the template string,
    60 and 61 the zero fill, and larger indices (which in C would be an
    out-of-bounds access) also read as the zero character initially, so
    that a write past the array is observable in the model.
  * Serial output and the time-string formatting by snprintf are I/O and
    are not modelled; the weekday / time-zone name arrays consulted by
    the formatting call are modelled so that the chosen names can be
    stated.
  * The caller-owned `struct tm` is a record of integers, zero-initialised
    as the global `tm dcf77Time` of src/src/dcf77RadioClock.cpp is.
-/
import Mathlib

set_option maxRecDepth 100000

namespace DCF77

/-- Nominal pulse width meaning bit 0 (DCF77Decoder.h, `P0`). -/
def P0 : Nat := 100

/-- Nominal pulse width meaning bit 1 (DCF77Decoder.h, `P1`). -/
def P1 : Nat := 200

/-- Allowed uncertainty of a measured width (DCF77Decoder.h, `JITTER`). -/
def JITTER : Nat := 35

/-- Minimal synchronization gap (DCF77Decoder.h, `MIN_SYNCGAP`). -/
def MIN_SYNCGAP : Nat := 1800

/-- Maximal synchronization gap (DCF77Decoder.h, `MAX_SYNCGAP`). -/
def MAX_SYNCGAP : Nat := 1900

/-- Modulus of the uint32 millisecond counter. -/
def U32 : Nat := 4294967296

/-- The edge kind reported by the interrupt handler: `EDGE_RISING` is a
pulse begin, `EDGE_FALLING` a pulse end. -/
inductive Edge where
  | rising : Edge
  | falling : Edge
deriving DecidableEq

/-- The caller-owned broken-down time record (`struct tm`), restricted to
the fields the decoder touches. -/
structure TmRec where
  tm_sec : Int
  tm_min : Int
  tm_hour : Int
  tm_mday : Int
  tm_mon : Int
  tm_year : Int
  tm_wday : Int
  tm_isdst : Int
deriving DecidableEq

/-- The decoder's member state (DCF77Decoder.h private fields), plus the
caller's `tm` record and the indicator pin level. -/
structure DecoderState where
  startPulse : Nat
  endPulse : Nat
  widthPulse : Nat
  widthPause : Nat
  synchronized : Bool
  seconds : Nat
  z12 : Int
  dcf77Bits : Nat → Char
  indicator : Bool
  tm : TmRec

/-- The template string seeding `_dcf77Bits` (DCF77Decoder.h line 84). -/
def templateBits : String := "0--Meteo-Data--RazZA|mmmmmmmPhhhhhhPddddddwwwMMMMMyyyyyyyyP_"

/-- Initial buffer contents: the 60 template characters, zero bytes after
them (C zero-fills the rest of the 62-byte aggregate; reads past the array
are modelled as zero bytes as well so that stray writes are observable). -/
def initBits : Nat → Char := fun i => templateBits.toList.getD i (Char.ofNat 0)

/-- Zero-initialised caller record. -/
def initTm : TmRec := ⟨0, 0, 0, 0, 0, 0, 0, 0⟩

/-- The decoder state right after construction. -/
def initState : DecoderState :=
  { startPulse := 0, endPulse := 0, widthPulse := 0, widthPause := 0,
    synchronized := false, seconds := 0, z12 := 0,
    dcf77Bits := initBits, indicator := false, tm := initTm }

/-- Pulse-width window for bit 0 (DCF77Decoder.cpp line 58, strict
comparisons as in the source). -/
def isZeroPulse (w : Nat) : Bool :=
  decide (P0 - JITTER < w) && decide (w < P0 + JITTER)

/-- Pulse-width window for bit 1 (DCF77Decoder.cpp line 63). -/
def isOnePulse (w : Nat) : Bool :=
  decide (P1 - JITTER < w) && decide (w < P1 + JITTER)

/-- Gap-width window for the minute-start synchronization gap
(DCF77Decoder.cpp line 42). -/
def isSyncGap (w : Nat) : Bool :=
  decide (MIN_SYNCGAP - JITTER < w) && decide (w < MAX_SYNCGAP + JITTER)

/-- The uint32 difference `now - _endPulse` measured on a rising edge
(`_widthPause`, DCF77Decoder.cpp line 40). -/
def gapWidth (s : DecoderState) (now : Nat) : Nat :=
  (now % U32 + U32 - s.endPulse) % U32

/-- The uint32 difference `now - _startPulse` measured on a falling edge
(`_widthPulse`, DCF77Decoder.cpp line 54). -/
def pulseWidth (s : DecoderState) (now : Nat) : Nat :=
  (now % U32 + U32 - s.startPulse) % U32

/-- One processed edge: the body of `DCF77Decoder::collectBits`
(DCF77Decoder.cpp lines 31-81) run when `_newEdge` is pending, with
`_edgeMode = edge` and `millis() = now`.  Returns the successor state and
the boolean result (true exactly when a sync gap was just detected). -/
def collectBits (s : DecoderState) (edge : Edge) (now : Nat) : DecoderState × Bool :=
  match edge with
  | Edge.rising =>
    let w := gapWidth s now
    let s1 := { s with startPulse := now % U32, widthPause := w }
    if isSyncGap w then
      ({ s1 with synchronized := true, seconds := 0,
                 tm := { s1.tm with tm_sec := 0 } }, true)
    else
      (s1, false)
  | Edge.falling =>
    let w := pulseWidth s now
    let s1 := { s with endPulse := now % U32, widthPulse := w }
    if s1.synchronized then
      let s2 := if isZeroPulse w then
                  { s1 with dcf77Bits := Function.update s1.dcf77Bits s1.seconds '0' }
                else s1
      let s3 := if isOnePulse w then
                  { s2 with dcf77Bits := Function.update s2.dcf77Bits s2.seconds '1' }
                else s2
      ({ s3 with indicator := !s3.indicator, seconds := s3.seconds + 1,
                 tm := { s3.tm with tm_sec := s3.tm.tm_sec + 1 } }, false)
    else
      (s1, false)

/-- The character arithmetic `(int)c - (int)'0'` used on buffer cells. -/
def charVal (c : Char) : Int := (c.toNat : Int) - 48

/-- The BCD place values `_bcdValue` (DCF77Decoder.h line 77). -/
def bcdValueList : List Int := [1, 2, 4, 8, 10, 20, 40, 80]

/-- Indexing into `_bcdValue`; every call of the source uses indices < 8. -/
def bcdValue (i : Nat) : Int := bcdValueList.getD i 0

/-- `DCF77Decoder::getValueFromBits` (DCF77Decoder.cpp lines 87-95):
weighted BCD sum of `nbrBits` buffer cells starting at `firstBit`. -/
def getValueFromBits (b : Nat → Char) (firstBit nbrBits : Nat) : Int :=
  Finset.sum (Finset.range nbrBits) (fun k => charVal (b (firstBit + k)) * bcdValue k)

/-- Sum of `(int)bits[i] - '0'` over indices `lo <= i < hi`, the loop shape
of `parityOK`. -/
def charSum (b : Nat → Char) (lo hi : Nat) : Int :=
  Finset.sum (Finset.Ico lo hi) (fun i => charVal (b i))

/-- `DCF77Decoder::parityOK` (DCF77Decoder.cpp lines 139-155): one running
sum over the minute range [21,29), the hour range [29,36) and the date
range [36,59), accepted iff the combined sum is even. -/
def parityOK (b : Nat → Char) : Bool :=
  (charSum b 21 29 + charSum b 29 36 + charSum b 36 59) % 2 == 0

/-- `DCF77Decoder::decodeBits` (DCF77Decoder.cpp lines 100-134): decode
the DST flag, set `_z12` and all `tm` fields from the buffer.  The
snprintf call producing `_dcf77TimeString` is output formatting and is
not part of the state model; see `weekDayNames` / `timeZoneNames` for the
name tables it consults. -/
def decodeBits (s : DecoderState) : DecoderState :=
  let value := getValueFromBits s.dcf77Bits 17 2
  let z12 : Int := if value = 2 then value else if value = 1 then 1 else 0
  let isdst : Int := if value = 2 then 0 else if value = 1 then 1 else -1
  { s with
    z12 := z12,
    tm := { s.tm with
            tm_sec := 0,
            tm_min := getValueFromBits s.dcf77Bits 21 7,
            tm_hour := getValueFromBits s.dcf77Bits 29 6,
            tm_mday := getValueFromBits s.dcf77Bits 36 6,
            tm_wday := getValueFromBits s.dcf77Bits 42 3,
            tm_mon := getValueFromBits s.dcf77Bits 45 5 - 1,
            tm_year := getValueFromBits s.dcf77Bits 50 8 + 100,
            tm_isdst := isdst } }

/-- `_weekDay` (DCF77Decoder.h line 86), indexed by `tm_wday`. -/
def weekDayNames : List String := ["--", "Mo", "Di", "Mi", "Do", "Fr", "Sa", "So"]

/-- `_timeZone` (DCF77Decoder.h line 87), indexed by `_z12`. -/
def timeZoneNames : List String := ["---", "MESZ", "MEZ"]

/-- Default string for out-of-range name lookups in statements. -/
def noName : String := ""

/-- `DCF77Decoder::isReady` (DCF77Decoder.cpp lines 188-191): the buffer
cell 58 no longer holds the template sentinel character. -/
def isReady (s : DecoderState) : Bool :=
  if s.dcf77Bits 58 = 'P' then false else true

/-- One iteration of `DCF77Decoder::loop` (DCF77Decoder.cpp lines 193-211)
processing one pending edge: when `collectBits` reports a minute boundary
and parity holds, the telegram is decoded; otherwise (serial diagnostics
aside) nothing further happens. -/
def loopStep (s : DecoderState) (edge : Edge) (now : Nat) : DecoderState :=
  let r := collectBits s edge now
  if r.2 then
    (if parityOK r.1.dcf77Bits then decodeBits r.1 else r.1)
  else r.1

/-- Folding `loopStep` over a list of timestamped edges. -/
def runLoop : DecoderState → List (Edge × Nat) → DecoderState
  | s, [] => s
  | s, (e, t) :: rest => runLoop (loopStep s e t) rest

/-- A pulse train: for each listed bit, a falling edge ending a pulse of
width 200 ms (bit 1) or 100 ms (bit 0) that began at time `t`, then the
next rising edge 800 ms after the previous one (a 700 or 600 ms pause,
never a sync gap). -/
def bitTrain : List Bool → Nat → List (Edge × Nat)
  | [], _ => []
  | b :: bs, t =>
      (Edge.falling, t + (if b then 200 else 100)) ::
      (Edge.rising, t + 800) :: bitTrain bs (t + 800)

/-! ### Specification-side vocabulary

The spec speaks about buffers whose telegram slots hold bits and about
sums of bit values; these definitions follow the spec's wording and are
kept separate from the source translation above. -/

/-- Bit value of a buffer character as the spec counts bits: 1 for the
character `'1'`, 0 otherwise. -/
def bitVal (c : Char) : Int := if c = '1' then 1 else 0

/-- Sum of bit values over indices `lo <= i < hi`. -/
def bitSum (b : Nat → Char) (lo hi : Nat) : Int :=
  Finset.sum (Finset.Ico lo hi) (fun i => bitVal (b i))

/-- A filled 59-slot bit buffer: every telegram slot holds a bit. -/
def Filled (b : Nat → Char) : Prop :=
  ∀ i, i < 59 → b i = '0' ∨ b i = '1'

instance (b : Nat → Char) : Decidable (Filled b) :=
  inferInstanceAs (Decidable (∀ i, i < 59 → b i = '0' ∨ b i = '1'))

/-- Flip the single bit at index `i`. -/
def flipAt (b : Nat → Char) (i : Nat) : Nat → Char :=
  Function.update b i (if b i = '1' then '0' else '1')

/-- A buffer with all slots zero. -/
def allZeroBuf : Nat → Char := fun _ => '0'

/-- A filled buffer whose minutes range and hours range each contain an
odd number of ones (one `'1'` at index 21 and one at index 29). -/
def oddTwoBuf : Nat → Char := fun i => if i = 21 ∨ i = 29 then '1' else '0'

/-! ### Helper lemmas about the parity sum -/

/-- The three loops of `parityOK` sum consecutive index ranges, so their
running total is the sum over the combined range [21,59). -/
lemma charSum_group (b : Nat → Char) :
    charSum b 21 29 + charSum b 29 36 + charSum b 36 59 = charSum b 21 59 := by
  unfold charSum
  rw [Finset.sum_Ico_consecutive (fun i => charVal (b i)) (by norm_num) (by norm_num),
      Finset.sum_Ico_consecutive (fun i => charVal (b i)) (by norm_num) (by norm_num)]

/-- `parityOK` accepts exactly when the combined character sum is even. -/
lemma parityOK_iff_even (b : Nat → Char) :
    parityOK b = true ↔ charSum b 21 59 % 2 = 0 := by
  unfold parityOK
  rw [charSum_group b]
  exact beq_iff_eq

/-- On bit characters, the source's `c - '0'` arithmetic agrees with the
spec's bit count. -/
lemma charVal_of_bit {c : Char} (h : c = '0' ∨ c = '1') : charVal c = bitVal c := by
  rcases h with h | h <;> rw [h] <;> decide

/-- On filled buffers, character sums over telegram ranges are bit sums. -/
lemma charSum_eq_bitSum (b : Nat → Char) (hb : Filled b) (lo hi : Nat)
    (hhi : hi ≤ 59) : charSum b lo hi = bitSum b lo hi := by
  unfold charSum bitSum
  refine Finset.sum_congr rfl (fun i hi2 => ?_)
  exact charVal_of_bit (hb i (lt_of_lt_of_le (Finset.mem_Ico.mp hi2).2 hhi))

/-! ### C1: the parity check is a single combined parity, not three
independent ones -/

/-- C1 counterexample: the filled buffer with single ones at indices 21
and 29 has an odd minutes range and an odd hours range, yet `parityOK`
accepts it, so acceptance is not equivalent to the three ranges each
having an even bit sum. -/
theorem parity_independent_cex :
    Filled oddTwoBuf ∧
    ¬(parityOK oddTwoBuf = true ↔
        (bitSum oddTwoBuf 21 29 % 2 = 0 ∧ bitSum oddTwoBuf 29 36 % 2 = 0 ∧
         bitSum oddTwoBuf 36 59 % 2 = 0)) := by
  decide

/-- C1 (amended): for every filled 59-slot bit buffer, parity validation
succeeds if and only if the combined sum of bits over the minutes range
[21,29), the hours range [29,36) and the date range [36,59) together is
even - a single combined parity check, each group's parity bit included. -/
theorem parity_combined_even (b : Nat → Char) (hb : Filled b) :
    parityOK b = true ↔
      (bitSum b 21 29 + bitSum b 29 36 + bitSum b 36 59) % 2 = 0 := by
  have hg : bitSum b 21 29 + bitSum b 29 36 + bitSum b 36 59 = bitSum b 21 59 := by
    unfold bitSum
    rw [Finset.sum_Ico_consecutive (fun i => bitVal (b i)) (by norm_num) (by norm_num),
        Finset.sum_Ico_consecutive (fun i => bitVal (b i)) (by norm_num) (by norm_num)]
  rw [parityOK_iff_even b, hg, charSum_eq_bitSum b hb 21 59 (le_refl 59)]

/-- C1 witness: the amended equivalence evaluated on the all-zero filled
buffer, which `parityOK` accepts with combined bit sum 0. -/
theorem parity_combined_even_witness :
    Filled allZeroBuf ∧
    (parityOK allZeroBuf = true ↔
      (bitSum allZeroBuf 21 29 + bitSum allZeroBuf 29 36 +
       bitSum allZeroBuf 36 59) % 2 = 0) :=
  ⟨by decide, parity_combined_even allZeroBuf (by decide)⟩

/-! ### C8: single-bit flips inside the protected ranges are rejected -/

/-- C8: flipping any single bit at an index inside [21,59) (the union of
the three parity-protected ranges) turns an accepted filled buffer into a
rejected one, because the combined sum changes parity. -/
theorem parity_flip_rejects (b : Nat → Char) (hb : Filled b) (i : Nat)
    (h1 : 21 ≤ i) (h2 : i < 59) (hok : parityOK b = true) :
    parityOK (flipAt b i) = false := by
  have hmem : i ∈ Finset.Ico 21 59 := Finset.mem_Ico.mpr ⟨h1, h2⟩
  have hS := Finset.sum_eq_sum_diff_singleton_add hmem (fun j => charVal (b j))
  have hS' := Finset.sum_eq_sum_diff_singleton_add hmem (fun j => charVal (flipAt b i j))
  have hsame : Finset.sum ((Finset.Ico 21 59) \ {i}) (fun j => charVal (flipAt b i j))
      = Finset.sum ((Finset.Ico 21 59) \ {i}) (fun j => charVal (b j)) := by
    refine Finset.sum_congr rfl (fun j hj => ?_)
    have hne : j ≠ i := by
      have hj2 := Finset.mem_sdiff.mp hj
      simpa using hj2.2
    unfold flipAt
    rw [Function.update_noteq hne]
  have hold : charSum b 21 59
      = Finset.sum ((Finset.Ico 21 59) \ {i}) (fun j => charVal (b j)) + charVal (b i) := hS
  have hnew : charSum (flipAt b i) 21 59
      = Finset.sum ((Finset.Ico 21 59) \ {i}) (fun j => charVal (b j))
        + charVal (flipAt b i i) := by
    rw [← hsame]
    exact hS'
  have hii : flipAt b i i = (if b i = '1' then '0' else '1') := by
    unfold flipAt
    rw [Function.update_same]
  have hok' : charSum b 21 59 % 2 = 0 := (parityOK_iff_even b).mp hok
  have hbit := hb i h2
  have hv0 : charVal '0' = 0 := by decide
  have hv1 : charVal '1' = 1 := by decide
  have hne : charSum (flipAt b i) 21 59 % 2 ≠ 0 := by
    rcases hbit with h | h
    · rw [h] at hii hold
      rw [if_neg (by decide)] at hii
      rw [hii, hv1] at hnew
      rw [hv0] at hold
      omega
    · rw [h] at hii hold
      rw [if_pos rfl] at hii
      rw [hii, hv0] at hnew
      rw [hv1] at hold
      omega
  exact (Bool.not_eq_true (parityOK (flipAt b i))).mp
    (fun hT => hne ((parityOK_iff_even (flipAt b i)).mp hT))

/-- C8 witness: flipping index 21 of the accepted all-zero buffer is
rejected. -/
theorem parity_flip_rejects_witness :
    Filled allZeroBuf ∧ parityOK allZeroBuf = true ∧
    parityOK (flipAt allZeroBuf 21) = false :=
  ⟨by decide, by decide,
   parity_flip_rejects allZeroBuf (by decide) 21 (by decide) (by decide) (by decide)⟩

/-! ### C5: the pulse-width windows use strict comparisons -/

/-- C5 counterexample: width 65 ms lies inside the claimed inclusive
bit-0 window [65,135], but the source's strict comparison
`_widthPulse > P0 - JITTER` rejects it. -/
theorem classifier_boundary_cex :
    ¬(isZeroPulse 65 = true ↔ (65 ≤ 65 ∧ 65 ≤ 135)) := by
  decide

/-- C5 (amended): the classifier yields bit 0 iff the width lies strictly
between 65 and 135 ms and bit 1 iff it lies strictly between 165 and
235 ms; the boundary values 65, 135, 165 and 235 themselves are excluded
and, like every other width outside both open windows, unrecognized. -/
theorem classifier_windows (w : Nat) :
    (isZeroPulse w = true ↔ 65 < w ∧ w < 135) ∧
    (isOnePulse w = true ↔ 165 < w ∧ w < 235) := by
  constructor <;> simp [isZeroPulse, isOnePulse, P0, P1, JITTER]

/-- C5 witness: the nominal widths 100 ms and 200 ms classify as bit 0
and bit 1. -/
theorem classifier_windows_witness :
    isZeroPulse 100 = true ∧ isOnePulse 200 = true :=
  ⟨(classifier_windows 100).1.mpr (by decide),
   (classifier_windows 200).2.mpr (by decide)⟩

/-! ### C6: the sync-gap window uses strict comparisons -/

/-- C6 counterexample: from the freshly constructed decoder, a rising
edge at 1765 ms measures a gap of exactly 1765 ms, inside the claimed
inclusive window [1765,1935], yet no sync is detected. -/
theorem sync_gap_boundary_cex :
    ¬((collectBits initState Edge.rising 1765).2 = true ↔
        (1765 ≤ gapWidth initState 1765 ∧ gapWidth initState 1765 ≤ 1935)) := by
  decide

/-- C6 (amended): a minute-start sync is detected on a rising edge iff
the measured gap lies strictly between 1765 and 1935 ms (boundaries
excluded); on detection `synchronized` is set, the second counter and the
calendar record's seconds field are reset to 0, and otherwise the
synchronizer state (`synchronized`, the second counter and the calendar
record) is left unchanged. -/
theorem sync_gap_detection (s : DecoderState) (now : Nat) :
    ((collectBits s Edge.rising now).2 = true ↔
      (MIN_SYNCGAP - JITTER < gapWidth s now ∧ gapWidth s now < MAX_SYNCGAP + JITTER)) ∧
    (isSyncGap (gapWidth s now) = true →
      (collectBits s Edge.rising now).1.synchronized = true ∧
      (collectBits s Edge.rising now).1.seconds = 0 ∧
      (collectBits s Edge.rising now).1.tm.tm_sec = 0) ∧
    (isSyncGap (gapWidth s now) = false →
      (collectBits s Edge.rising now).1.synchronized = s.synchronized ∧
      (collectBits s Edge.rising now).1.seconds = s.seconds ∧
      (collectBits s Edge.rising now).1.tm = s.tm) := by
  have hbounds : isSyncGap (gapWidth s now) = true ↔
      (MIN_SYNCGAP - JITTER < gapWidth s now ∧ gapWidth s now < MAX_SYNCGAP + JITTER) := by
    simp [isSyncGap]
  cases hsg : isSyncGap (gapWidth s now) with
  | true =>
      refine ⟨?_, fun _ => ?_, fun hc => ?_⟩
      · rw [← hbounds]
        simp [collectBits, hsg]
      · simp [collectBits, hsg]
      · exact Bool.noConfusion hc
  | false =>
      refine ⟨?_, fun hc => ?_, fun _ => ?_⟩
      · rw [← hbounds]
        simp [collectBits, hsg]
      · exact Bool.noConfusion hc
      · simp [collectBits, hsg]

/-- C6 witness: a 1800 ms gap measured from the fresh decoder triggers
sync detection with the stated effects. -/
theorem sync_gap_detection_witness :
    (collectBits initState Edge.rising 1800).2 = true ∧
    (collectBits initState Edge.rising 1800).1.synchronized = true ∧
    (collectBits initState Edge.rising 1800).1.seconds = 0 ∧
    (collectBits initState Edge.rising 1800).1.tm.tm_sec = 0 :=
  ⟨(sync_gap_detection initState 1800).1.mpr (by decide),
   ((sync_gap_detection initState 1800).2.1 (by decide)).1,
   ((sync_gap_detection initState 1800).2.1 (by decide)).2.1,
   ((sync_gap_detection initState 1800).2.1 (by decide)).2.2⟩

/-! ### C2: unrecognized pulse widths drop the bit but advance the
second counter -/

/-- The decoder state right after the first sync-gap detection at
1800 ms. -/
def syncState : DecoderState := (collectBits initState Edge.rising 1800).1

/-- C2 counterexample: while synchronized at second 0, a falling edge
whose measured width 300 ms matches neither window leaves no bit behind
but advances the second counter from 0 to 1, contradicting the claim
that `secondIndex` does not advance. -/
theorem unrecognized_pulse_cex :
    syncState.synchronized = true ∧ syncState.seconds = 0 ∧
    pulseWidth syncState 2100 = 300 ∧
    isZeroPulse 300 = false ∧ isOnePulse 300 = false ∧
    (collectBits syncState Edge.falling 2100).1.seconds = 1 := by
  decide

/-- C2 (amended): for every falling-edge pulse observed while the decoder
is synchronized whose measured width lies outside both the bit-0 window
and the bit-1 window, no bit is written into the bit buffer, but the
second counter and the calendar record's seconds field advance by one and
the indicator output toggles, exactly as for a recognized pulse. -/
theorem unrecognized_pulse_drops_bit (s : DecoderState) (now : Nat)
    (hs : s.synchronized = true)
    (h0 : isZeroPulse (pulseWidth s now) = false)
    (h1 : isOnePulse (pulseWidth s now) = false) :
    (collectBits s Edge.falling now).1.dcf77Bits = s.dcf77Bits ∧
    (collectBits s Edge.falling now).1.seconds = s.seconds + 1 ∧
    (collectBits s Edge.falling now).1.tm.tm_sec = s.tm.tm_sec + 1 ∧
    (collectBits s Edge.falling now).1.indicator = !s.indicator := by
  simp [collectBits, hs, h0, h1]

/-- C2 witness: the amended behaviour on the just-synchronized state and
a 300 ms pulse. -/
theorem unrecognized_pulse_drops_bit_witness :
    (collectBits syncState Edge.falling 2100).1.dcf77Bits = syncState.dcf77Bits ∧
    (collectBits syncState Edge.falling 2100).1.seconds = syncState.seconds + 1 ∧
    (collectBits syncState Edge.falling 2100).1.tm.tm_sec = syncState.tm.tm_sec + 1 ∧
    (collectBits syncState Edge.falling 2100).1.indicator = !syncState.indicator :=
  unrecognized_pulse_drops_bit syncState 2100 (by decide) (by decide) (by decide)

/-! ### C3: nothing stops the bit accumulator at index 59 -/

/-- A sync gap of 1800 ms at time 1800, followed by 63 recognized 100 ms
pulses whose 700 ms pauses never match the sync window, so the second
counter is never reset. -/
def overrunEvents : List (Edge × Nat) :=
  (Edge.rising, 1800) :: bitTrain (List.replicate 63 false) 1800

/-- The decoder state after processing `overrunEvents` through the loop. -/
def overrunState : DecoderState := runLoop initState overrunEvents

/-- C3 (refuting the claim): after `overrunEvents` the second counter has
reached 63 and bits were written at index 59 (the claim says index >= 59
is never written) and even at index 62, which lies beyond the 62-byte
`_dcf77Bits` array and in C is an out-of-bounds write. -/
theorem overrun_writes_past_buffer :
    overrunState.synchronized = true ∧
    overrunState.seconds = 63 ∧
    overrunState.dcf77Bits 59 = '0' ∧ initState.dcf77Bits 59 = '_' ∧
    overrunState.dcf77Bits 62 = '0' ∧ initState.dcf77Bits 62 = Char.ofNat 0 := by
  decide

/-! ### C4: `isReady` only tests the sentinel character, never parity or
freshness -/

/-- The 59 bits of a telegram that fails the parity check: a single one
at index 21. -/
def badBits : List Bool := (List.range 59).map (fun i => i == 21)

/-- The decoder state after a sync gap and the 59 pulses of `badBits`. -/
def filledBadState : DecoderState :=
  runLoop initState ((Edge.rising, 1800) :: bitTrain badBits 1800)

/-- C4 counterexample: after collecting a telegram that fails parity
validation, `isReady` nevertheless reports true, contradicting the claim
that it never returns true for a parity-failing telegram. -/
theorem isReady_parity_cex :
    parityOK filledBadState.dcf77Bits = false ∧ isReady filledBadState = true := by
  decide

/-- `isReady` is exactly the sentinel test on buffer cell 58. -/
lemma isReady_iff (s : DecoderState) : isReady s = true ↔ s.dcf77Bits 58 ≠ 'P' := by
  unfold isReady
  split <;> simp_all

/-- Updating the buffer with a non-sentinel character keeps cell 58 away
from the sentinel. -/
lemma update_keeps_not_P {f : Nat → Char} (h : f 58 ≠ 'P') (k : Nat) (v : Char)
    (hv : v ≠ 'P') : Function.update f k v 58 ≠ 'P' := by
  by_cases hk : (58 : Nat) = k
  · subst hk
    rw [Function.update_same]
    exact hv
  · rw [Function.update_noteq hk]
    exact h

/-- C4 (amended): `isReady` returns true iff buffer cell 58 differs from
the sentinel character `'P'`; it is false on the fresh decoder, it does
not consult the parity check, and once true it stays true under every
further processed edge (the buffer is never re-seeded), so it does not
become false when the telegram stops being fresh. -/
theorem isReady_sentinel (s : DecoderState) :
    (isReady s = true ↔ s.dcf77Bits 58 ≠ 'P') ∧
    isReady initState = false ∧
    (∀ e now, isReady s = true → isReady (collectBits s e now).1 = true) := by
  refine ⟨isReady_iff s, by decide, ?_⟩
  intro e now h
  rw [isReady_iff] at h
  rw [isReady_iff]
  cases e with
  | rising =>
      by_cases hg : isSyncGap (gapWidth s now) <;> simp [collectBits, hg] <;> exact h
  | falling =>
      by_cases hs : s.synchronized
      · by_cases h0 : isZeroPulse (pulseWidth s now)
        · by_cases h1 : isOnePulse (pulseWidth s now)
          · simp [collectBits, hs, h0, h1]
            exact update_keeps_not_P h _ '1' (by decide)
          · simp [collectBits, hs, h0, h1]
            exact update_keeps_not_P h _ '0' (by decide)
        · by_cases h1 : isOnePulse (pulseWidth s now)
          · simp [collectBits, hs, h0, h1]
            exact update_keeps_not_P h _ '1' (by decide)
          · simp [collectBits, hs, h0, h1]
            exact h
      · simp [collectBits, hs]
        exact h

/-- C4 witness: the sentinel characterization and single-step stability
evaluated on the parity-failing filled state. -/
theorem isReady_sentinel_witness :
    (isReady filledBadState = true ↔ filledBadState.dcf77Bits 58 ≠ 'P') ∧
    isReady (collectBits filledBadState Edge.falling 99999).1 = true :=
  ⟨(isReady_sentinel filledBadState).1,
   (isReady_sentinel filledBadState).2.2 Edge.falling 99999 (by decide)⟩

/-! ### C7: the documented example telegram -/

/-- The 59 bits of the documented example telegram
(src/src/dcf77RadioClock.cpp lines 41-44). -/
def exampleTelegram : String := "01001101001001000010110011100100100010100001111000011010001"

/-- A buffer holding the example telegram in slots 0..58 (telegram bits
overwrite the template slots one per second; later cells keep their
initial contents, which no decode step reads). -/
def exampleBuffer : Nat → Char := fun i => exampleTelegram.toList.getD i (initBits i)

/-- A decoder state holding the example telegram. -/
def exampleState : DecoderState := { initState with dcf77Bits := exampleBuffer }

/-- C7: the example telegram passes the parity check and decodes to
Saturday 2016-03-05 09:39:00 in standard time: minutes 39, hours 9, day
of month 5, weekday code 6 (printed as `Sa`), `tm_mon` 2 (March),
`tm_year` 116 (printed as 2016), seconds forced to 0, DST flag value 2 so
`tm_isdst = 0` and `_z12 = 2` (printed as `MEZ`). -/
theorem example_telegram_decodes :
    parityOK exampleBuffer = true ∧
    (decodeBits exampleState).tm.tm_sec = 0 ∧
    (decodeBits exampleState).tm.tm_min = 39 ∧
    (decodeBits exampleState).tm.tm_hour = 9 ∧
    (decodeBits exampleState).tm.tm_mday = 5 ∧
    (decodeBits exampleState).tm.tm_wday = 6 ∧
    (decodeBits exampleState).tm.tm_mon = 2 ∧
    (decodeBits exampleState).tm.tm_year = 116 ∧
    (decodeBits exampleState).tm.tm_isdst = 0 ∧
    (decodeBits exampleState).z12 = 2 ∧
    weekDayNames.getD ((decodeBits exampleState).tm.tm_wday).toNat noName = "Sa" ∧
    timeZoneNames.getD ((decodeBits exampleState).z12).toNat noName = "MEZ" := by
  decide

/-! ### C9: a failed parity check suppresses the telegram assembler -/

/-- A falling edge never reports a minute boundary. -/
lemma collectBits_falling_snd (s : DecoderState) (now : Nat) :
    (collectBits s Edge.falling now).2 = false := by
  simp only [collectBits]
  split <;> rfl

/-- C9: when a completed minute's buffer fails the parity check, the loop
does not run the telegram assembler, and every assembler-written field of
the caller's calendar record (minutes, hours, day, weekday, month, year,
DST flag) keeps its previous value, as does `_z12`. -/
theorem parity_fail_keeps_fields (s : DecoderState) (e : Edge) (now : Nat)
    (hsync : (collectBits s e now).2 = true)
    (hpar : parityOK (collectBits s e now).1.dcf77Bits = false) :
    (loopStep s e now).tm.tm_min = s.tm.tm_min ∧
    (loopStep s e now).tm.tm_hour = s.tm.tm_hour ∧
    (loopStep s e now).tm.tm_mday = s.tm.tm_mday ∧
    (loopStep s e now).tm.tm_wday = s.tm.tm_wday ∧
    (loopStep s e now).tm.tm_mon = s.tm.tm_mon ∧
    (loopStep s e now).tm.tm_year = s.tm.tm_year ∧
    (loopStep s e now).tm.tm_isdst = s.tm.tm_isdst ∧
    (loopStep s e now).z12 = s.z12 := by
  have hstep : loopStep s e now = (collectBits s e now).1 := by
    simp [loopStep, hsync, hpar]
  rw [hstep]
  cases e with
  | rising =>
      cases hgb : isSyncGap (gapWidth s now) with
      | false => simp [collectBits, hgb] at hsync
      | true => simp [collectBits, hgb]
  | falling =>
      rw [collectBits_falling_snd] at hsync
      exact Bool.noConfusion hsync

/-- C9 witness: the first sync gap reports a minute boundary while the
buffer still holds the parity-failing template, and all decoded fields of
the zero-initialised record stay unchanged. -/
theorem parity_fail_keeps_fields_witness :
    (loopStep initState Edge.rising 1800).tm.tm_min = initState.tm.tm_min ∧
    (loopStep initState Edge.rising 1800).tm.tm_hour = initState.tm.tm_hour ∧
    (loopStep initState Edge.rising 1800).tm.tm_mday = initState.tm.tm_mday ∧
    (loopStep initState Edge.rising 1800).tm.tm_wday = initState.tm.tm_wday ∧
    (loopStep initState Edge.rising 1800).tm.tm_mon = initState.tm.tm_mon ∧
    (loopStep initState Edge.rising 1800).tm.tm_year = initState.tm.tm_year ∧
    (loopStep initState Edge.rising 1800).tm.tm_isdst = initState.tm.tm_isdst ∧
    (loopStep initState Edge.rising 1800).z12 = initState.z12 :=
  parity_fail_keeps_fields initState Edge.rising 1800 (by decide) (by decide)

/-! ### C10: struct tm conversion conventions of the assembler -/

/-- A buffer whose weekday field [42,45) holds the BCD code 7 (Sunday)
and all other slots zero. -/
def sundayBuf : Nat → Char := fun i => if 42 ≤ i ∧ i ≤ 44 then '1' else '0'

/-- A decoder state holding `sundayBuf`. -/
def sundayState : DecoderState := { initState with dcf77Bits := sundayBuf }

/-- C10: after the assembler runs, `tm_mon` is the BCD-decoded month
minus 1 and `tm_year` is the BCD-decoded two-digit year plus 100, while
`tm_wday` keeps the DCF77 weekday code unconverted; in particular a
telegram encoding Sunday (weekday code 7) stores 7, not struct tm's 0. -/
theorem decode_tm_conventions :
    (∀ s : DecoderState,
      (decodeBits s).tm.tm_mon = getValueFromBits s.dcf77Bits 45 5 - 1 ∧
      (decodeBits s).tm.tm_year = getValueFromBits s.dcf77Bits 50 8 + 100 ∧
      (decodeBits s).tm.tm_wday = getValueFromBits s.dcf77Bits 42 3) ∧
    ((decodeBits sundayState).tm.tm_wday = 7 ∧ (decodeBits sundayState).tm.tm_wday ≠ 0) :=
  ⟨fun s => ⟨rfl, rfl, rfl⟩, by decide⟩

/-- C10 witness: the conversion equalities evaluated on the Sunday
buffer. -/
theorem decode_tm_conventions_witness :
    (decodeBits sundayState).tm.tm_mon = getValueFromBits sundayState.dcf77Bits 45 5 - 1 ∧
    (decodeBits sundayState).tm.tm_year = getValueFromBits sundayState.dcf77Bits 50 8 + 100 ∧
    (decodeBits sundayState).tm.tm_wday = getValueFromBits sundayState.dcf77Bits 42 3 :=
  decode_tm_conventions.1 sundayState

end DCF77
